import Mathlib

/-!
Shallow embedding of `src/main.ts` (github-stats service) and verification of
its specification claims.

Modelling conventions:
* JavaScript `Map<string, {data, timestamp}>` becomes an association list with
  `Map.set` replace-in-place-or-append semantics; `Date.now()` instants are
  integers (milliseconds).
* Fallible remote calls (`octokit` requests) become `Except Unit` values in an
  explicit environment record; a `try/catch` in the source becomes a `match` on
  that value.  Calls whose failure the source does not catch (the profile
  fetch, the repository listing) are modelled as plain fields, since their
  failure propagates on both sides of every claim.
* JavaScript number arithmetic on byte counts is modelled with `ℚ`;
  `x.toFixed(2)` followed by `parseFloat` becomes rounding to a multiple of
  `1/100`, and the `NaN` produced by `0 / 0` becomes `none : Option ℚ`.
* `Array.prototype.sort` with a numeric comparator is a stable sort by that
  key; it is modelled with `List.insertionSort`, which is stable (a stable
  sort with respect to a total preorder is unique, so any stable sort is an
  equivalent model).
-/

namespace GithubStats

/-! ### Cache (src/main.ts lines 32-46) -/

/-- Entry stored in the cache map: the payload plus the `Date.now()` value at
the time of `setCache`. -/
structure CacheEntry (α : Type) where
  data : α
  timestamp : Int
deriving DecidableEq, Repr

/-- Mirrors `const CACHE_DURATION = 3600000` (one hour in milliseconds). -/
def CACHE_DURATION : Int := 3600000

/-- Read access of the underlying `Map`: `cache.get(key)`, first matching key. -/
def cacheLookup {α : Type} (c : List (String × CacheEntry α)) (k : String) :
    Option (CacheEntry α) :=
  (c.find? (fun p => p.1 == k)).map (fun p => p.2)

/-- Mirrors `getFromCache` (lines 36-42).  The function only reads the map, so
its state component is returned unchanged: the returned pair is
(result, cache-after-call). -/
def getFromCache {α : Type} (c : List (String × CacheEntry α)) (k : String)
    (now : Int) : Option α × List (String × CacheEntry α) :=
  match cacheLookup c k with
  | some cached => if now - cached.timestamp < CACHE_DURATION
      then (some cached.data, c) else (none, c)
  | none => (none, c)

/-- Mirrors `setCache` (lines 44-46): `Map.set` replaces an existing entry for
the key in place, otherwise appends a new one. -/
def setCache {α : Type} : List (String × CacheEntry α) → String → α → Int →
    List (String × CacheEntry α)
  | [], k, v, t => [(k, ⟨v, t⟩)]
  | p :: c, k, v, t =>
      if p.1 == k then (k, ⟨v, t⟩) :: c else p :: setCache c k v t

theorem cacheLookup_setCache {α : Type} (c : List (String × CacheEntry α))
    (k : String) (v : α) (t : Int) :
    cacheLookup (setCache c k v t) k = some ⟨v, t⟩ := by
  induction c with
  | nil => simp [setCache, cacheLookup]
  | cons p c ih =>
      by_cases hp : p.1 == k
      · simp [setCache, hp, cacheLookup]
      · simpa [setCache, hp, cacheLookup] using ih

/-- C4: `get(k)` is absent exactly when no entry exists for `k` or the elapsed
time since the entry was set is at least `CACHE_DURATION` (the `<` in the
source makes the boundary `elapsed = TTL` expire); the map itself is left
unchanged, so an expired entry is not removed, only treated as absent. -/
theorem getFromCache_absent_iff {α : Type} (c : List (String × CacheEntry α))
    (k : String) (now : Int) :
    ((getFromCache c k now).1 = none ↔
      cacheLookup c k = none ∨
        ∃ e, cacheLookup c k = some e ∧ CACHE_DURATION ≤ now - e.timestamp)
    ∧ (getFromCache c k now).2 = c := by
  cases he : cacheLookup c k with
  | none => simp [getFromCache, he]
  | some e =>
      constructor
      · simp only [getFromCache, he]
        by_cases hf : now - e.timestamp < CACHE_DURATION
        all_goals simp [hf]
        all_goals omega
      · simp only [getFromCache, he]
        split <;> rfl

/-- C8: `set(k, v)` immediately followed by `get(k)` with less than the TTL
elapsed between the two returns exactly `v`. -/
theorem cache_roundtrip {α : Type} (c : List (String × CacheEntry α))
    (k : String) (v : α) (t now : Int) (h : now - t < CACHE_DURATION) :
    (getFromCache (setCache c k v t) k now).1 = some v := by
  simp [getFromCache, cacheLookup_setCache, h]

/-- Witness for `cache_roundtrip` at a concrete cache, key, value and clock. -/
theorem cache_roundtrip_witness :
    ((1 : Int) - 0 < CACHE_DURATION) ∧
      (getFromCache (setCache ([] : List (String × CacheEntry Nat)) "k" 7 0)
        "k" 1).1 = some 7 :=
  ⟨by decide, cache_roundtrip [] "k" 7 0 1 (by decide)⟩

/-! ### Request-handler parameter parsing (src/main.ts lines 352-355) -/

/-- Mirrors the JavaScript `||` default on a nullable string: both `null`
(absent parameter) and the empty string are falsy and select the default. -/
def jsOrDefault (v : Option String) (d : String) : String :=
  match v with
  | some s => if s.isEmpty then d else s
  | none => d

/-- Mirrors `url.searchParams.get("username") || "elyor04"` (line 354). -/
def resolveUsername (v : Option String) : String := jsOrDefault v "elyor04"

/-- Mirrors `url.searchParams.get("private") === "true"` (line 355). -/
def parseIncludePrivate (v : Option String) : Bool := v == some "true"

/-- C10: `includePrivate` is true exactly when the `private` query parameter is
the literal string "true"; absent, "TRUE", "1", "yes" and the empty string all
yield false; and an empty-string `username` parameter, like an absent one,
resolves to the default username "elyor04". -/
theorem handler_param_parsing :
    (∀ v : Option String, parseIncludePrivate v = true ↔ v = some "true")
    ∧ parseIncludePrivate none = false
    ∧ parseIncludePrivate (some "TRUE") = false
    ∧ parseIncludePrivate (some "1") = false
    ∧ parseIncludePrivate (some "yes") = false
    ∧ parseIncludePrivate (some "") = false
    ∧ resolveUsername (some "") = "elyor04"
    ∧ resolveUsername none = "elyor04" := by
  refine ⟨fun v => ?_, by decide, by decide, by decide, by decide, by decide,
    by decide, by decide⟩
  constructor
  · intro h
    exact eq_of_beq h
  · intro h
    subst h
    rfl

/-! ### User statistics aggregation (src/main.ts lines 48-144) -/

/-- Fields of a repository object consumed by the aggregators.  `private` is a
Lean keyword, so the visibility flag is named `isPrivate`.  `stargazers_count`
and `forks_count` are optional because the source guards them with `?? 0`. -/
structure Repo where
  name : String
  owner : String
  isPrivate : Bool
  fork : Bool
  stargazers_count : Option Nat
  forks_count : Option Nat
deriving DecidableEq, Repr

/-- Fields of the profile returned by `users.getByUsername` that the
aggregator reads.  `name` is optional (`user.name || user.login`). -/
structure GhUser where
  login : String
  name : Option String
  public_repos : Nat
  followers : Nat
  following : Nat
deriving DecidableEq, Repr

/-- Mirrors the `UserStats` interface (lines 13-26). -/
structure UserStats where
  username : String
  name : String
  totalStars : Nat
  totalForks : Nat
  totalRepos : Nat
  publicRepos : Nat
  privateRepos : Nat
  followers : Nat
  following : Nat
  totalCommits : Nat
  totalIssues : Nat
  totalPRs : Nat
deriving DecidableEq, Repr

/-- Environment of one `getUserStats` execution: the outcome each remote call
would have if made.  `authLogin` is the login of `users.getAuthenticated`
(`Except.error` when the call fails); the search fields carry the length the
paginated result array would have (`Except.error` when the search throws). -/
structure UserApi where
  authLogin : Except Unit String
  user : GhUser
  ownedRepos : List Repo
  publicList : List Repo
  commitSearch : Except Unit Nat
  issueSearch : Except Unit Nat
  prSearch : Except Unit Nat

/-- Mirrors the identity check duplicated at lines 54-68 and 152-166:
`authUser.login.toLowerCase() === username.toLowerCase()`, false when the
authenticated-user call fails. -/
def isAuthLogin (authLogin : Except Unit String) (username : String) : Bool :=
  match authLogin with
  | .ok login => login.toLower == username.toLower
  | .error _ => false

/-- Mirrors the repository-source choice (lines 74-88 and 169-181): the
authenticated listing is used only when `includePrivate` holds AND the
username matches the authenticated identity. -/
def selectRepos (ownedRepos publicList : List Repo)
    (authLogin : Except Unit String) (username : String)
    (includePrivate : Bool) : List Repo :=
  if includePrivate && isAuthLogin authLogin username then ownedRepos
  else publicList

/-- Mirrors JavaScript truthiness of `user.name || user.login`. -/
def displayName (u : GhUser) : String :=
  jsOrDefault u.name u.login

/-- Outcome of one (uncached) `getUserStats` execution, together with two
observations about the run: whether the authenticated listing endpoint was the
repository source, and whether the PR search was reached (it sits after the
issue search inside the same `try` block, lines 111-125). -/
structure UserStatsRun where
  stats : UserStats
  usedAuthListing : Bool
  prSearchAttempted : Bool
deriving DecidableEq, Repr

/-- Mirrors the computation of `getUserStats` (lines 48-144) on a cache miss.
The cache layer (lines 49-51, 142) returns a previously stored value verbatim
and is modelled separately by `getFromCache`/`setCache`. -/
def getUserStats (api : UserApi) (username : String) (includePrivate : Bool) :
    UserStatsRun :=
  let useAuth := includePrivate && isAuthLogin api.authLogin username
  let repos := selectRepos api.ownedRepos api.publicList api.authLogin
    username includePrivate
  let totalStars := (repos.map (fun r => r.stargazers_count.getD 0)).sum
  let totalForks := (repos.map (fun r => r.forks_count.getD 0)).sum
  let pubCount := (repos.filter (fun r => !r.isPrivate)).length
  let privCount := (repos.filter (fun r => r.isPrivate)).length
  let totalCommits := match api.commitSearch with
    | .ok n => n
    | .error _ => 0
  let issuesPRs : Nat × Nat × Bool :=
    match api.issueSearch with
    | .error _ => (0, 0, false)
    | .ok ni =>
        match api.prSearch with
        | .error _ => (ni, 0, true)
        | .ok np => (ni, np, true)
  { stats :=
      { username := api.user.login
        name := displayName api.user
        totalStars := totalStars
        totalForks := totalForks
        totalRepos := repos.length
        publicRepos := if includePrivate then pubCount
          else api.user.public_repos
        privateRepos := if includePrivate then privCount else 0
        followers := api.user.followers
        following := api.user.following
        totalCommits := totalCommits
        totalIssues := issuesPRs.1
        totalPRs := issuesPRs.2.1 }
    usedAuthListing := useAuth
    prSearchAttempted := issuesPRs.2.2 }

/-- Claim C1 as stated: the issue search and the PR search degrade to zero
independently — an issue-search failure leaves `totalIssues` at 0 without
affecting whether the PR search is attempted or its result, and a PR-search
failure leaves `totalPRs` at 0 without affecting `totalIssues`. -/
def claimC1 : Prop :=
  ∀ (api : UserApi) (u : String) (inc : Bool) (ni np : Nat),
    (getUserStats { api with issueSearch := .error () } u inc).stats.totalIssues
        = 0
    ∧ (getUserStats { api with issueSearch := .error () } u inc).prSearchAttempted
        = (getUserStats { api with issueSearch := .ok ni } u inc).prSearchAttempted
    ∧ (getUserStats { api with issueSearch := .error () } u inc).stats.totalPRs
        = (getUserStats { api with issueSearch := .ok ni } u inc).stats.totalPRs
    ∧ (getUserStats { api with prSearch := .error () } u inc).stats.totalPRs = 0
    ∧ (getUserStats { api with prSearch := .error () } u inc).stats.totalIssues
        = (getUserStats { api with prSearch := .ok np } u inc).stats.totalIssues

/-- Concrete environment refuting C1: every call succeeds except where a claim
overrides it, and the PR search would return one result. -/
def apiC1 : UserApi :=
  { authLogin := .error ()
    user := { login := "u", name := none, public_repos := 0, followers := 0,
              following := 0 }
    ownedRepos := []
    publicList := []
    commitSearch := .ok 0
    issueSearch := .ok 0
    prSearch := .ok 1 }

/-- C1 counterexample: with the PR search set to return 1 result, an
issue-search failure skips the PR search entirely (both searches share one
`try` block), so the PR search is not attempted and `totalPRs` is 0 instead
of 1 — the claimed independence fails. -/
theorem claimC1_false : ¬ claimC1 := fun h =>
  absurd (h apiC1 "u" false 0 0).2.1 (by decide)

/-- C1 amended: the two searches share a single `catch`; a failure of the
issue search forces `totalIssues = 0`, skips the PR search and forces
`totalPRs = 0`, while a failure of the PR search alone leaves `totalPRs = 0`
with `totalIssues` keeping the issue-search result. -/
theorem issue_pr_searches_share_catch (api : UserApi) (u : String)
    (inc : Bool) (ni : Nat) :
    (getUserStats { api with issueSearch := .error () } u inc).stats.totalIssues
        = 0
    ∧ (getUserStats { api with issueSearch := .error () } u inc).stats.totalPRs
        = 0
    ∧ (getUserStats { api with issueSearch := .error () } u inc).prSearchAttempted
        = false
    ∧ (getUserStats { api with issueSearch := .ok ni, prSearch := .error () }
        u inc).stats.totalIssues = ni
    ∧ (getUserStats { api with issueSearch := .ok ni, prSearch := .error () }
        u inc).stats.totalPRs = 0 :=
  ⟨rfl, rfl, rfl, rfl, rfl⟩

/-- Claim C2 as stated: whenever the authenticated-listing path was not taken,
`publicRepos` equals the profile's `public_repos` field and `privateRepos` is
0, the filter-derived counts being reserved for the `includePrivate` path. -/
def claimC2 : Prop :=
  ∀ (api : UserApi) (u : String) (inc : Bool),
    (getUserStats api u inc).usedAuthListing = false →
      (getUserStats api u inc).stats.publicRepos = api.user.public_repos
      ∧ (getUserStats api u inc).stats.privateRepos = 0

/-- Concrete environment refuting C2: `includePrivate = true` but the token
belongs to nobody (identity check fails), profile reports 5 public repos while
the public listing returns a single repository. -/
def apiC2 : UserApi :=
  { authLogin := .error ()
    user := { login := "u", name := none, public_repos := 5, followers := 0,
              following := 0 }
    ownedRepos := []
    publicList := [{ name := "r", owner := "u", isPrivate := false,
                     fork := false, stargazers_count := none,
                     forks_count := none }]
    commitSearch := .ok 0
    issueSearch := .ok 0
    prSearch := .ok 0 }

/-- C2 counterexample: with `includePrivate = true` and a non-matching
identity, the repository list comes from the public listing (authenticated
path not taken), yet `publicRepos` is the filtered count 1, not the profile's
`public_repos = 5` — the ternary at line 133 tests `includePrivate`, not the
path taken. -/
theorem claimC2_false : ¬ claimC2 := fun h =>
  absurd (h apiC2 "u" true (by decide)).1 (by decide)

/-- C2 amended: the profile-reported public count with private forced to 0 is
used exactly when `includePrivate` is false; whenever `includePrivate` is
true the counts are derived by filtering the fetched list by visibility flag,
even when the list came from the public listing endpoint. -/
theorem repo_counts_keyed_on_includePrivate (api : UserApi) (u : String) :
    (getUserStats api u false).stats.publicRepos = api.user.public_repos
    ∧ (getUserStats api u false).stats.privateRepos = 0
    ∧ (getUserStats api u true).stats.publicRepos
        = ((selectRepos api.ownedRepos api.publicList api.authLogin u
            true).filter (fun r => !r.isPrivate)).length
    ∧ (getUserStats api u true).stats.privateRepos
        = ((selectRepos api.ownedRepos api.publicList api.authLogin u
            true).filter (fun r => r.isPrivate)).length :=
  ⟨rfl, rfl, rfl, rfl⟩

/-- C6: a commit-search failure is caught: `totalCommits` is 0 and every other
field of the returned `UserStats` is exactly what it is when the commit search
succeeds (the surrounding computation is total, so the failure never
propagates to the caller). -/
theorem commit_search_failure_degrades (api : UserApi) (u : String)
    (inc : Bool) (n : Nat) :
    (getUserStats { api with commitSearch := .error () } u inc).stats.totalCommits
        = 0
    ∧ (getUserStats { api with commitSearch := .ok n } u inc).stats.totalCommits
        = n
    ∧ (getUserStats { api with commitSearch := .error () } u inc).stats
        = { (getUserStats { api with commitSearch := .ok n } u inc).stats with
            totalCommits := 0 }
    ∧ (getUserStats { api with commitSearch := .error () } u inc).usedAuthListing
        = (getUserStats { api with commitSearch := .ok n } u inc).usedAuthListing :=
  ⟨rfl, rfl, rfl, rfl⟩

/-! ### Language statistics aggregation (src/main.ts lines 146-216) -/

/-- Mirrors `languages[lang] = (languages[lang] || 0) + bytes` (line 195) on a
JavaScript object: an existing key is updated in place, a new key is appended
(string-key insertion order). -/
def addLangBytes (acc : List (String × Nat)) (lang : String) (bytes : Nat) :
    List (String × Nat) :=
  if acc.any (fun p => p.1 == lang)
  then acc.map (fun p => if p.1 == lang then (p.1, p.2 + bytes) else p)
  else acc ++ [(lang, bytes)]

/-- Mirrors the repository loop (lines 185-200): forks are skipped, a failed
`listLanguages` call for one repository is caught and skipped, successful
responses are folded into the accumulator entry by entry. -/
def accumulateLanguages (repos : List Repo)
    (langs : String → String → Except Unit (List (String × Nat))) :
    List (String × Nat) :=
  repos.foldl (fun acc repo =>
    if repo.fork then acc
    else
      match langs repo.owner repo.name with
      | .ok repoLangs =>
          repoLangs.foldl (fun a p => addLangBytes a p.1 p.2) acc
      | .error _ => acc) []

/-- Grand total of bytes (line 203). -/
def totalLangBytes (l : List (String × Nat)) : Nat :=
  (l.map (fun p => p.2)).sum

/-- Models `parseFloat(x.toFixed(2))` under exact rational arithmetic:
rounding to the nearest multiple of `1/100`. -/
def jsToFixed2 (q : ℚ) : ℚ := (round (q * 100) : ℤ) / 100

/-- Mirrors the percentage conversion (lines 204-207).  When the total is
zero every accumulated byte count is zero, so `(bytes / total) * 100` is the
JavaScript `NaN`, modelled as `none`. -/
def languagePercentages (acc : List (String × Nat)) :
    List (String × Option ℚ) :=
  acc.map (fun p => (p.1,
    if totalLangBytes acc = 0 then none
    else some (jsToFixed2 ((p.2 : ℚ) / (totalLangBytes acc : ℚ) * 100))))

/-- Ordering used by the comparator `([, a], [, b]) => b - a` (line 211):
entry `p` may precede entry `q` when `q`'s value is at most `p`'s. -/
def langGE (p q : String × Option ℚ) : Prop := q.2.getD 0 ≤ p.2.getD 0

instance : DecidableRel langGE :=
  fun p q => inferInstanceAs (Decidable (q.2.getD 0 ≤ p.2.getD 0))

instance : IsTotal (String × Option ℚ) langGE :=
  ⟨fun _ _ => le_total _ _⟩

instance : IsTrans (String × Option ℚ) langGE :=
  ⟨fun _ _ _ h1 h2 => le_trans h2 h1⟩

/-- Mirrors the descending sort (lines 210-212).  JavaScript's
`Array.prototype.sort` is a stable sort; a stable sort with respect to a
total preorder is unique, so the stable `insertionSort` is an exact model. -/
def sortLangs (l : List (String × Option ℚ)) : List (String × Option ℚ) :=
  List.insertionSort langGE l

/-- Environment of one `getLanguageStats` execution: `langs owner name` is the
outcome the `listLanguages` call for that repository would have. -/
structure LangApi where
  authLogin : Except Unit String
  ownedRepos : List Repo
  publicList : List Repo
  langs : String → String → Except Unit (List (String × Nat))

/-- Outcome of one (uncached) `getLanguageStats` execution plus the
observation of which repository listing was used. -/
structure LangRun where
  result : List (String × Option ℚ)
  usedAuthListing : Bool

/-- Byte mapping accumulated over the selected repositories. -/
def langAccum (api : LangApi) (u : String) (inc : Bool) :
    List (String × Nat) :=
  accumulateLanguages
    (selectRepos api.ownedRepos api.publicList api.authLogin u inc) api.langs

/-- Mirrors the computation of `getLanguageStats` (lines 146-216) on a cache
miss; the cache layer is modelled separately by `getFromCache`/`setCache`. -/
def getLanguageStats (api : LangApi) (u : String) (inc : Bool) : LangRun :=
  { result := sortLangs (languagePercentages (langAccum api u inc))
    usedAuthListing := inc && isAuthLogin api.authLogin u }

/-- Boolean observation that an `Except` value is a failure. -/
def isError {α : Type} : Except Unit α → Bool
  | .error _ => true
  | .ok _ => false

theorem accumulateLanguages_eq_nil
    (langs : String → String → Except Unit (List (String × Nat))) :
    ∀ repos : List Repo,
      (∀ r ∈ repos, r.fork = true ∨ isError (langs r.owner r.name) = true) →
      accumulateLanguages repos langs = [] := by
  intro repos
  induction repos with
  | nil => intro _; rfl
  | cons r rs ih =>
      intro h
      have hstep :
          (if r.fork then ([] : List (String × Nat))
            else
              match langs r.owner r.name with
              | .ok repoLangs =>
                  repoLangs.foldl (fun a p => addLangBytes a p.1 p.2) []
              | .error _ => []) = [] := by
        rcases h r (List.mem_cons_self r rs) with hf | he
        · simp [hf]
        · cases hl : langs r.owner r.name with
          | ok v => rw [hl] at he; simp [isError] at he
          | error e => simp [hl]
      have hrest := ih (fun r' hr' => h r' (List.mem_cons_of_mem r hr'))
      simp only [accumulateLanguages, List.foldl_cons] at hrest ⊢
      rw [hstep]
      exact hrest

/-- Claim C3 as stated: whenever the accumulated byte mapping has grand total
zero the returned mapping is empty, and no `NaN` (`none`) entry is ever
produced. -/
def claimC3 : Prop :=
  ∀ (api : LangApi) (u : String) (inc : Bool),
    (totalLangBytes (langAccum api u inc) = 0 →
      (getLanguageStats api u inc).result = [])
    ∧ ∀ p ∈ (getLanguageStats api u inc).result, p.2 ≠ none

/-- Concrete environment refuting C3: one non-fork repository whose language
listing succeeds with a single zero-byte entry. -/
def apiC3 : LangApi :=
  { authLogin := .error ()
    ownedRepos := []
    publicList := [{ name := "r", owner := "o", isPrivate := false,
                     fork := false, stargazers_count := none,
                     forks_count := none }]
    langs := fun _ _ => .ok [("A", 0)] }

/-- C3 counterexample: a successful language listing containing a zero-byte
entry gives an accumulated mapping with grand total zero that is not empty;
the code then computes `0 / 0`, so the result is the single entry
`("A", NaN)` rather than the empty mapping. -/
theorem claimC3_false : ¬ claimC3 := fun h =>
  absurd ((h apiC3 "u" false).1 (by decide)) (by decide)

/-- C3 amended: when every selected repository is a fork or has a failing
language fetch — in particular with zero non-fork repositories, or with every
per-repository fetch failing — the accumulated mapping is empty and the
returned `LanguageStats` is the empty mapping, with no division performed; a
grand total of zero with a non-empty mapping (zero-byte entries) instead
yields `NaN` entries. -/
theorem empty_accumulation_empty_result (api : LangApi) (u : String)
    (inc : Bool)
    (h : ∀ r ∈ selectRepos api.ownedRepos api.publicList api.authLogin u inc,
      r.fork = true ∨ isError (api.langs r.owner r.name) = true) :
    langAccum api u inc = [] ∧ (getLanguageStats api u inc).result = [] := by
  have hacc : langAccum api u inc = [] :=
    accumulateLanguages_eq_nil api.langs _ h
  refine ⟨hacc, ?_⟩
  simp [getLanguageStats, hacc, sortLangs, languagePercentages]

/-- Concrete environment with no repositories at all, used as witness input. -/
def apiC3e : LangApi :=
  { authLogin := .error ()
    ownedRepos := []
    publicList := []
    langs := fun _ _ => .error () }

/-- Witness for `empty_accumulation_empty_result` on an environment with an
empty repository list. -/
theorem empty_accumulation_empty_result_witness :
    (∀ r ∈ selectRepos apiC3e.ownedRepos apiC3e.publicList apiC3e.authLogin
        "u" false,
      r.fork = true ∨ isError (apiC3e.langs r.owner r.name) = true)
    ∧ (getLanguageStats apiC3e "u" false).result = [] :=
  ⟨by decide,
    (empty_accumulation_empty_result apiC3e "u" false (by decide)).2⟩

/-- C7: for a non-empty accumulated mapping (positive grand total), every
accumulated language appears in the result with value
`100 * bytes / total` rounded to two decimal places, and the result is
ordered by descending percentage. -/
theorem language_percentages_correct (api : LangApi) (u : String) (inc : Bool)
    (h : 0 < totalLangBytes (langAccum api u inc)) :
    (∀ lang bytes, (lang, bytes) ∈ langAccum api u inc →
      (lang, some (jsToFixed2
          ((bytes : ℚ) / (totalLangBytes (langAccum api u inc) : ℚ) * 100)))
        ∈ (getLanguageStats api u inc).result)
    ∧ List.Sorted langGE (getLanguageStats api u inc).result := by
  constructor
  · intro lang bytes hmem
    have htot : totalLangBytes (langAccum api u inc) ≠ 0 := h.ne'
    show _ ∈ sortLangs (languagePercentages (langAccum api u inc))
    rw [sortLangs, List.mem_insertionSort]
    have hmap := List.mem_map_of_mem
      (fun p : String × Nat => (p.1,
        if totalLangBytes (langAccum api u inc) = 0 then none
        else some (jsToFixed2
          ((p.2 : ℚ) / (totalLangBytes (langAccum api u inc) : ℚ) * 100))))
      hmem
    simpa [languagePercentages, htot] using hmap
  · exact List.sorted_insertionSort langGE _

/-- Concrete environment for the C7 witness: byte counts A: 300, B: 700. -/
def apiC7 : LangApi :=
  { authLogin := .error ()
    ownedRepos := []
    publicList := [{ name := "r", owner := "o", isPrivate := false,
                     fork := false, stargazers_count := none,
                     forks_count := none }]
    langs := fun _ _ => .ok [("A", 300), ("B", 700)] }

theorem apiC7_accum : langAccum apiC7 "u" false = [("A", 300), ("B", 700)] := by
  decide

theorem apiC7_result :
    (getLanguageStats apiC7 "u" false).result
      = [("B", some 70), ("A", some 30)] := by
  have hperc : languagePercentages [("A", 300), ("B", 700)]
      = [("A", some 30), ("B", some 70)] := by
    norm_num [languagePercentages, totalLangBytes, jsToFixed2]
  have hsort : sortLangs [("A", some 30), ("B", some 70)]
      = [("B", some 70), ("A", some 30)] := by
    norm_num [sortLangs, List.insertionSort, List.orderedInsert, langGE]
  show sortLangs (languagePercentages (langAccum apiC7 "u" false))
      = [("B", some 70), ("A", some 30)]
  rw [apiC7_accum, hperc, hsort]

/-- Witness for `language_percentages_correct`: byte counts A: 300 and
B: 700 give percentages A: 30 and B: 70 ordered descending as [B, A]. -/
theorem language_percentages_correct_witness :
    0 < totalLangBytes (langAccum apiC7 "u" false)
    ∧ ("A", some (jsToFixed2
        ((300 : ℚ) / (totalLangBytes (langAccum apiC7 "u" false) : ℚ) * 100)))
        ∈ (getLanguageStats apiC7 "u" false).result
    ∧ (getLanguageStats apiC7 "u" false).result
        = [("B", some 70), ("A", some 30)] :=
  ⟨by decide,
    (language_percentages_correct apiC7 "u" false (by decide)).1 "A" 300
      (by decide),
    apiC7_result⟩

/-- C5: with `includePrivate = false` both aggregators flag the public
listing as their repository source, and their entire output is unchanged by
replacing the authenticated listing's would-be response: the authenticated
endpoint is never consulted, whatever the username. -/
theorem public_path_never_uses_auth_listing (uapi : UserApi) (lapi : LangApi)
    (u : String) (altU altL : List Repo) :
    (getUserStats uapi u false).usedAuthListing = false
    ∧ getUserStats uapi u false
        = getUserStats { uapi with ownedRepos := altU } u false
    ∧ (getLanguageStats lapi u false).usedAuthListing = false
    ∧ (getLanguageStats lapi u false).result
        = (getLanguageStats { lapi with ownedRepos := altL } u false).result :=
  ⟨rfl, rfl, rfl, rfl⟩

/-! ### Cache keys and identity comparison (src/main.ts lines 49, 58, 147) -/

/-- Mirrors the template literal at line 49. -/
def userStatsCacheKey (username : String) (includePrivate : Bool) : String :=
  "user-stats-" ++ username ++ "-"
    ++ (if includePrivate then "private" else "public")

/-- Mirrors the template literal at line 147. -/
def langStatsCacheKey (username : String) (includePrivate : Bool) : String :=
  "lang-stats-" ++ username ++ "-"
    ++ (if includePrivate then "private" else "public")

theorem key_inj (pre mid sfx : String) {u1 u2 : String}
    (h : pre ++ u1 ++ mid ++ sfx = pre ++ u2 ++ mid ++ sfx) : u1 = u2 := by
  have hd := congrArg String.data h
  simp only [String.data_append, List.append_assoc] at hd
  exact String.ext
    (List.append_cancel_right (List.append_cancel_left hd))

/-- C9: the identity comparison lowercases both sides, so usernames differing
only in letter case make the same routing decision, while the cache key embeds
the username verbatim, so the same two requests use distinct cache entries. -/
theorem case_insensitive_auth_distinct_cache_keys (u1 u2 : String)
    (auth : Except Unit String) (inc : Bool)
    (hlow : u1.toLower = u2.toLower) (hne : u1 ≠ u2) :
    isAuthLogin auth u1 = isAuthLogin auth u2
    ∧ userStatsCacheKey u1 inc ≠ userStatsCacheKey u2 inc
    ∧ langStatsCacheKey u1 inc ≠ langStatsCacheKey u2 inc := by
  refine ⟨?_, fun hk => hne (key_inj _ _ _ hk),
    fun hk => hne (key_inj _ _ _ hk)⟩
  cases auth with
  | ok login => simp [isAuthLogin, hlow]
  | error e => rfl

/-- Witness for `case_insensitive_auth_distinct_cache_keys` on the concrete
usernames "Elyor04" and "elyor04". -/
theorem toLower_Elyor04 : "Elyor04".toLower = "elyor04".toLower := by
  simp only [String.toLower, String.map_eq]
  decide

theorem case_insensitive_auth_distinct_cache_keys_witness :
    ("Elyor04".toLower = "elyor04".toLower)
    ∧ ("Elyor04" ≠ "elyor04")
    ∧ isAuthLogin (Except.ok "ELYOR04") "Elyor04"
        = isAuthLogin (Except.ok "ELYOR04") "elyor04"
    ∧ userStatsCacheKey "Elyor04" false ≠ userStatsCacheKey "elyor04" false :=
  ⟨toLower_Elyor04, by decide,
    (case_insensitive_auth_distinct_cache_keys "Elyor04" "elyor04"
      (Except.ok "ELYOR04") false toLower_Elyor04 (by decide)).1,
    (case_insensitive_auth_distinct_cache_keys "Elyor04" "elyor04"
      (Except.ok "ELYOR04") false toLower_Elyor04 (by decide)).2.1⟩

end GithubStats
